import Mathlib

/-!
# go-rollercoaster-api: a shallow embedding of `server.go`

The HTTP handlers of `server.go` are embedded as pure functions.

* Go `string` and `[]byte` values are modelled by `String`.
* `map[string]Coaster` is an association list with distinct keys (`AList`).  Go leaves the
  iteration order of a map unspecified; the order of the entries stands for the order in which
  the next `range` statement visits them.  Theorems are stated for every store, hence for every
  order, and the reachability relation contains a reordering step.
* The embedded `sync.Mutex` is dropped: handler calls are modelled one at a time.
* `http.ResponseWriter` is a record that follows the contract of `net/http`: the first call of
  `Write` sends the header with status 200 when `WriteHeader` has not been called, and a
  `WriteHeader` after the header has been sent changes nothing.
* `encoding/json` is a parameter of the handlers (`Json`); `EncodingJson` is a reference
  instance used to run the handlers on concrete requests.
* `time.Now().UnixNano()` and the draw of `rand.Intn` are explicit arguments.
-/

namespace Rollercoaster

/-! ## Data model -/

/-- The record type `Coaster`. -/
structure Coaster where
  Name : String
  Manufacturer : String
  ID : String
  InPark : String
  Height : Int
deriving DecidableEq, Repr

/-- The value of `var c Coaster`: every text field empty, height 0. -/
def Coaster.zero : Coaster :=
  { Name := "", Manufacturer := "", ID := "", InPark := "", Height := 0 }

/-- The type `map[string]Coaster`. -/
abbrev Store := AList (fun _ : String => Coaster)

/-- The struct `coasterHandlers` (without its mutex). -/
structure coasterHandlers where
  store : Store
deriving DecidableEq

/-- The struct `adminPortal`. -/
structure adminPortal where
  password : String
deriving DecidableEq

/-! ## net/http -/

def StatusOK : Nat := 200
def StatusFound : Nat := 302
def StatusBadRequest : Nat := 400
def StatusUnauthorized : Nat := 401
def StatusNotFound : Nat := 404
def StatusMethodNotAllowed : Nat := 405
def StatusUnsupportedMediaType : Nat := 415
def StatusInternalServerError : Nat := 500

/-- What a handler reads from `*http.Request`: `r.Method`, `r.URL.String()`,
`r.Header.Get("content-type")`, the result of `ioutil.ReadAll(r.Body)` (the bytes, or the text
of the read error) and the result of `r.BasicAuth()` (`none` when `ok` is false). -/
structure Request where
  Method : String
  URL : String
  ContentType : String
  Body : Except String String
  BasicAuth : Option (String × String)

/-- The state of an `http.ResponseWriter`: the header map the handler edits, whether the header
has been sent, and the status, header and body that went out. -/
structure ResponseWriter where
  header : List (String × String)
  wroteHeader : Bool
  status : Nat
  sentHeader : List (String × String)
  body : String
deriving DecidableEq, Repr

/-- The writer a handler is started with. -/
def ResponseWriter.new : ResponseWriter :=
  { header := [], wroteHeader := false, status := 0, sentHeader := [], body := "" }

/-- The call `w.Header().Add(key, value)`. -/
def ResponseWriter.HeaderAdd (w : ResponseWriter) (key value : String) : ResponseWriter :=
  { w with header := w.header ++ [(key, value)] }

/-- The call `w.WriteHeader(code)`: sends the header once; a later call is superfluous and is
ignored. -/
def ResponseWriter.WriteHeader (w : ResponseWriter) (code : Nat) : ResponseWriter :=
  if w.wroteHeader then w
  else { w with wroteHeader := true, status := code, sentHeader := w.header }

/-- Whether a response with this status may carry a body. -/
def bodyAllowedForStatus (status : Nat) : Bool :=
  if 100 ≤ status ∧ status ≤ 199 then false
  else if status = 204 then false
  else if status = 304 then false
  else true

/-- The call `w.Write(data)`: sends the header with status 200 first when it has not been sent
yet. -/
def ResponseWriter.Write (w : ResponseWriter) (data : String) : ResponseWriter :=
  let w := if w.wroteHeader then w else w.WriteHeader StatusOK
  if bodyAllowedForStatus w.status then { w with body := w.body ++ data } else w

/-- The response on the wire. -/
structure Response where
  status : Nat
  header : List (String × String)
  body : String
deriving DecidableEq, Repr

/-- What the server sends when the handler returns: a handler that never sent the header gets
status 200. -/
def ResponseWriter.finish (w : ResponseWriter) : Response :=
  let w := if w.wroteHeader then w else w.WriteHeader StatusOK
  { status := w.status, header := w.sentHeader, body := w.body }

/-! ## Library functions -/

/-- The functions of `encoding/json` the handlers call: `json.Unmarshal` into a zero `Coaster`,
`json.Marshal` of a `Coaster` and of a `[]Coaster`.  An error carries the text of
`err.Error()`. -/
structure Json where
  Unmarshal : String → Except String Coaster
  Marshal : Coaster → Except String String
  MarshalSlice : List Coaster → Except String String

/-- The digit `d` as a character. -/
def digitChar (d : Nat) : Char := Char.ofNat (48 + d)

/-- Decimal digits of `n`, least significant first. -/
def decimalRev : Nat → Nat → List Char
  | 0, _ => []
  | fuel + 1, n => if n < 10 then [digitChar n] else digitChar (n % 10) :: decimalRev fuel (n / 10)

/-- Decimal text of a natural number. -/
def formatNat (n : Nat) : String := String.mk (decimalRev (n + 1) n).reverse

/-- The call `fmt.Sprintf("%d", i)`. -/
def SprintfD : Int → String
  | Int.ofNat n => formatNat n
  | Int.negSucc n => String.mk ('-' :: (formatNat (n + 1)).data)

/-- Splitting a character list at every occurrence of `sep`. -/
def splitChars (sep : Char) : List Char → List (List Char)
  | [] => [[]]
  | c :: cs =>
    if c = sep then [] :: splitChars sep cs
    else
      match splitChars sep cs with
      | [] => [[c]]
      | p :: ps => (c :: p) :: ps

/-- The call `strings.Split(s, "/")`. -/
def SplitSlash (s : String) : List String := (splitChars '/' s.data).map String.mk

/-! ## A reference instance of `encoding/json` -/

/-- The stack entries of the JSON scanner. -/
inductive ParseState
  | objectKey
  | objectValue
  | arrayValue
deriving DecidableEq, Repr

/-- The states of the JSON scanner. -/
inductive ScanState
  | beginValueOrEmpty | beginValue | beginStringOrEmpty | beginString | endValue | endTop
  | inString | inStringEsc | inStringEscU | inStringEscU1 | inStringEscU12 | inStringEscU123
  | neg | one | zero | dot | dot0 | e | eSign | e0
  | t | tr | tru | f | fa | fal | fals | n | nu | nul
  | error
deriving DecidableEq, Repr

/-- The JSON scanner: current state, whether the top-level value is complete, the stack of
open composites (innermost first) and the first syntax error. -/
structure Scanner where
  step : ScanState
  endTop : Bool
  parseState : List ParseState
  err : Option String
deriving DecidableEq, Repr

def Scanner.reset : Scanner :=
  { step := .beginValue, endTop := false, parseState := [], err := none }

def maxNestingDepth : Nat := 10000

def hexDigit (d : Nat) : Char := "0123456789abcdef".data.getD d '0'

/-- The first byte of the UTF-8 encoding of `c`. -/
def firstByte (c : Char) : Nat :=
  let n := c.toNat
  if n < 0x80 then n
  else if n < 0x800 then 0xC0 + n / 64
  else if n < 0x10000 then 0xE0 + n / 4096
  else 0xF0 + n / 262144

/-- The text `quoteChar` prints for the byte at which scanning failed. -/
def quoteChar (c : Char) : String :=
  if c = '\'' then "'\\''"
  else if c = '"' then "'\"'"
  else
    let b := firstByte c
    let inner : String :=
      if b = 7 then "\\a" else if b = 8 then "\\b" else if b = 12 then "\\f"
      else if b = 10 then "\\n" else if b = 13 then "\\r" else if b = 9 then "\\t"
      else if b = 11 then "\\v" else if b = 92 then "\\\\"
      else if b < 32 ∨ b = 127 then String.mk ['\\', 'x', hexDigit (b / 16), hexDigit (b % 16)]
      else String.mk [Char.ofNat b]
    "'" ++ inner ++ "'"

def Scanner.error (s : Scanner) (c : Char) (context : String) : Scanner :=
  { s with step := .error, err := some ("invalid character " ++ quoteChar c ++ " " ++ context) }

def isSpace (c : Char) : Bool := c = ' ' || c = '\t' || c = '\r' || c = '\n'

def isDigit09 (c : Char) : Bool := '0' ≤ c && c ≤ '9'

def isHex (c : Char) : Bool :=
  ('0' ≤ c && c ≤ '9') || ('a' ≤ c && c ≤ 'f') || ('A' ≤ c && c ≤ 'F')

def Scanner.pushParseState (s : Scanner) (c : Char) (p : ParseState) : Scanner :=
  let s := { s with parseState := p :: s.parseState }
  if s.parseState.length ≤ maxNestingDepth then s else s.error c "exceeded max depth"

def Scanner.popParseState (s : Scanner) : Scanner :=
  let rest := s.parseState.tail
  if rest.length = 0 then { s with parseState := rest, step := .endTop, endTop := true }
  else { s with parseState := rest, step := .endValue }

def stateEndTop (s : Scanner) (c : Char) : Scanner :=
  if !isSpace c then s.error c "after top-level value" else s

def stateEndValue (s : Scanner) (c : Char) : Scanner :=
  match s.parseState with
  | [] => stateEndTop { s with step := .endTop, endTop := true } c
  | ps :: rest =>
    if isSpace c then { s with step := .endValue }
    else
      match ps with
      | .objectKey =>
        if c = ':' then { s with parseState := .objectValue :: rest, step := .beginValue }
        else s.error c "after object key"
      | .objectValue =>
        if c = ',' then { s with parseState := .objectKey :: rest, step := .beginString }
        else if c = '}' then s.popParseState
        else s.error c "after object key:value pair"
      | .arrayValue =>
        if c = ',' then { s with step := .beginValue }
        else if c = ']' then s.popParseState
        else s.error c "after array element"

def stateBeginValue (s : Scanner) (c : Char) : Scanner :=
  if isSpace c then s
  else if c = '{' then Scanner.pushParseState { s with step := .beginStringOrEmpty } c .objectKey
  else if c = '[' then Scanner.pushParseState { s with step := .beginValueOrEmpty } c .arrayValue
  else if c = '"' then { s with step := .inString }
  else if c = '-' then { s with step := .neg }
  else if c = '0' then { s with step := .zero }
  else if c = 't' then { s with step := .t }
  else if c = 'f' then { s with step := .f }
  else if c = 'n' then { s with step := .n }
  else if '1' ≤ c && c ≤ '9' then { s with step := .one }
  else s.error c "looking for beginning of value"

def stateBeginValueOrEmpty (s : Scanner) (c : Char) : Scanner :=
  if isSpace c then s
  else if c = ']' then stateEndValue s c
  else stateBeginValue s c

def stateBeginString (s : Scanner) (c : Char) : Scanner :=
  if isSpace c then s
  else if c = '"' then { s with step := .inString }
  else s.error c "looking for beginning of object key string"

def stateBeginStringOrEmpty (s : Scanner) (c : Char) : Scanner :=
  if isSpace c then s
  else if c = '}' then stateEndValue { s with parseState := .objectValue :: s.parseState.tail } c
  else stateBeginString s c

def stateInString (s : Scanner) (c : Char) : Scanner :=
  if c = '"' then { s with step := .endValue }
  else if c = '\\' then { s with step := .inStringEsc }
  else if c.toNat < 0x20 then s.error c "in string literal"
  else s

def stateInStringEsc (s : Scanner) (c : Char) : Scanner :=
  if c = 'b' || c = 'f' || c = 'n' || c = 'r' || c = 't' || c = '\\' || c = '/' || c = '"' then
    { s with step := .inString }
  else if c = 'u' then { s with step := .inStringEscU }
  else s.error c "in string escape code"

def stateHex (next : ScanState) (s : Scanner) (c : Char) : Scanner :=
  if isHex c then { s with step := next }
  else s.error c "in \\u hexadecimal character escape"

def state0 (s : Scanner) (c : Char) : Scanner :=
  if c = '.' then { s with step := .dot }
  else if c = 'e' || c = 'E' then { s with step := .e }
  else stateEndValue s c

def state1 (s : Scanner) (c : Char) : Scanner :=
  if isDigit09 c then { s with step := .one } else state0 s c

def stateNeg (s : Scanner) (c : Char) : Scanner :=
  if c = '0' then { s with step := .zero }
  else if '1' ≤ c && c ≤ '9' then { s with step := .one }
  else s.error c "in numeric literal"

def stateDot (s : Scanner) (c : Char) : Scanner :=
  if isDigit09 c then { s with step := .dot0 }
  else s.error c "after decimal point in numeric literal"

def stateDot0 (s : Scanner) (c : Char) : Scanner :=
  if isDigit09 c then s
  else if c = 'e' || c = 'E' then { s with step := .e }
  else stateEndValue s c

def stateESign (s : Scanner) (c : Char) : Scanner :=
  if isDigit09 c then { s with step := .e0 }
  else s.error c "in exponent of numeric literal"

def stateE (s : Scanner) (c : Char) : Scanner :=
  if c = '+' || c = '-' then { s with step := .eSign } else stateESign s c

def stateE0 (s : Scanner) (c : Char) : Scanner :=
  if isDigit09 c then s else stateEndValue s c

def stateLit (want : Char) (next : ScanState) (context : String) (s : Scanner) (c : Char) :
    Scanner :=
  if c = want then { s with step := next } else s.error c context

/-- One step of the scanner on the next character. -/
def Scanner.next (s : Scanner) (c : Char) : Scanner :=
  match s.step with
  | .beginValueOrEmpty => stateBeginValueOrEmpty s c
  | .beginValue => stateBeginValue s c
  | .beginStringOrEmpty => stateBeginStringOrEmpty s c
  | .beginString => stateBeginString s c
  | .endValue => stateEndValue s c
  | .endTop => stateEndTop s c
  | .inString => stateInString s c
  | .inStringEsc => stateInStringEsc s c
  | .inStringEscU => stateHex .inStringEscU1 s c
  | .inStringEscU1 => stateHex .inStringEscU12 s c
  | .inStringEscU12 => stateHex .inStringEscU123 s c
  | .inStringEscU123 => stateHex .inString s c
  | .neg => stateNeg s c
  | .one => state1 s c
  | .zero => state0 s c
  | .dot => stateDot s c
  | .dot0 => stateDot0 s c
  | .e => stateE s c
  | .eSign => stateESign s c
  | .e0 => stateE0 s c
  | .t => stateLit 'r' .tr "in literal true (expecting 'r')" s c
  | .tr => stateLit 'u' .tru "in literal true (expecting 'u')" s c
  | .tru => stateLit 'e' .endValue "in literal true (expecting 'e')" s c
  | .f => stateLit 'a' .fa "in literal false (expecting 'a')" s c
  | .fa => stateLit 'l' .fal "in literal false (expecting 'l')" s c
  | .fal => stateLit 's' .fals "in literal false (expecting 's')" s c
  | .fals => stateLit 'e' .endValue "in literal false (expecting 'e')" s c
  | .n => stateLit 'u' .nu "in literal null (expecting 'u')" s c
  | .nu => stateLit 'l' .nul "in literal null (expecting 'l')" s c
  | .nul => stateLit 'l' .endValue "in literal null (expecting 'l')" s c
  | .error => s

/-- The function `checkValid`: `none` when the text is one JSON value, else the text of the
syntax error. -/
def checkValid (data : List Char) : Option String :=
  let s := data.foldl Scanner.next Scanner.reset
  match s.err with
  | some e => some e
  | none =>
    if s.endTop then none
    else
      let s := s.next ' '
      if s.endTop then none
      else
        match s.err with
        | some e => some e
        | none => some "unexpected end of JSON input"


/-- A parsed JSON value; a number keeps its literal text. -/
inductive JVal
  | null
  | bool (b : Bool)
  | num (lit : String)
  | str (s : String)
  | arr (xs : List JVal)
  | obj (kvs : List (String × JVal))

def skipSpace : List Char → List Char
  | [] => []
  | c :: cs => if isSpace c then skipSpace cs else c :: cs

def hexVal (c : Char) : Nat :=
  if '0' ≤ c && c ≤ '9' then c.toNat - 48
  else if 'a' ≤ c && c ≤ 'f' then c.toNat - 87
  else c.toNat - 55

/-- The function `getu4`: the code unit of a leading `\uXXXX`. -/
def getu4 : List Char → Option Nat
  | '\\' :: 'u' :: a :: b :: c :: d :: _ =>
    if isHex a && isHex b && isHex c && isHex d then
      some (((hexVal a * 16 + hexVal b) * 16 + hexVal c) * 16 + hexVal d)
    else none
  | _ => none

def replacementChar : Char := Char.ofNat 0xFFFD

/-- The function `unquote`, started after the opening quote: the decoded text and what follows
the closing quote. -/
def unquote : Nat → List Char → List Char → Option (String × List Char)
  | 0, _, _ => none
  | _ + 1, [], _ => none
  | fuel + 1, c :: rest, acc =>
    if c = '"' then some (String.mk acc.reverse, rest)
    else if c = '\\' then
      match rest with
      | [] => none
      | e :: rest1 =>
        if e = 'u' then
          match getu4 (c :: rest) with
          | none => none
          | some rr =>
            let after := rest1.drop 4
            if 0xD800 ≤ rr ∧ rr < 0xE000 then
              match getu4 after with
              | some rr1 =>
                if rr < 0xDC00 ∧ 0xDC00 ≤ rr1 ∧ rr1 < 0xE000 then
                  unquote fuel (after.drop 6)
                    (Char.ofNat ((rr - 0xD800) * 1024 + (rr1 - 0xDC00) + 0x10000) :: acc)
                else unquote fuel after (replacementChar :: acc)
              | none => unquote fuel after (replacementChar :: acc)
            else unquote fuel after (Char.ofNat rr :: acc)
        else if e = '"' || e = '\\' || e = '/' then unquote fuel rest1 (e :: acc)
        else if e = 'b' then unquote fuel rest1 (Char.ofNat 8 :: acc)
        else if e = 'f' then unquote fuel rest1 (Char.ofNat 12 :: acc)
        else if e = 'n' then unquote fuel rest1 ('\n' :: acc)
        else if e = 'r' then unquote fuel rest1 ('\r' :: acc)
        else if e = 't' then unquote fuel rest1 ('\t' :: acc)
        else none
    else if c.toNat < 0x20 then none
    else unquote fuel rest (c :: acc)

def isNumberChar (c : Char) : Bool :=
  isDigit09 c || c = '-' || c = '+' || c = '.' || c = 'e' || c = 'E'

/-- The members of an object after the opening brace; `pv` reads one value. -/
def parseMembers (pv : List Char → Option (JVal × List Char)) :
    Nat → List Char → List (String × JVal) → Option (JVal × List Char)
  | 0, _, _ => none
  | fuel + 1, cs, acc =>
    match skipSpace cs with
    | [] => none
    | c :: rest =>
      if c = '}' then some (.obj acc.reverse, rest)
      else if c = '"' then
        match unquote (rest.length + 1) rest [] with
        | none => none
        | some (key, r1) =>
          match skipSpace r1 with
          | [] => none
          | c1 :: r2 =>
            if c1 = ':' then
              match pv r2 with
              | none => none
              | some (v, r3) =>
                match skipSpace r3 with
                | [] => none
                | c2 :: r4 =>
                  if c2 = ',' then parseMembers pv fuel r4 ((key, v) :: acc)
                  else if c2 = '}' then some (.obj ((key, v) :: acc).reverse, r4)
                  else none
            else none
      else none

/-- The elements of an array after the opening bracket; `pv` reads one value. -/
def parseElements (pv : List Char → Option (JVal × List Char)) :
    Nat → List Char → List JVal → Option (JVal × List Char)
  | 0, _, _ => none
  | fuel + 1, cs, acc =>
    match skipSpace cs with
    | [] => none
    | c :: rest =>
      if c = ']' then some (.arr acc.reverse, rest)
      else
        match pv (c :: rest) with
        | none => none
        | some (v, r1) =>
          match skipSpace r1 with
          | [] => none
          | c1 :: r2 =>
            if c1 = ',' then parseElements pv fuel r2 (v :: acc)
            else if c1 = ']' then some (.arr (v :: acc).reverse, r2)
            else none

/-- Reading one value of a text that `checkValid` accepted. -/
def parseValue : Nat → List Char → Option (JVal × List Char)
  | 0, _ => none
  | fuel + 1, cs =>
    match skipSpace cs with
    | [] => none
    | c :: rest =>
      if c = '{' then parseMembers (parseValue fuel) (rest.length + 1) rest []
      else if c = '[' then parseElements (parseValue fuel) (rest.length + 1) rest []
      else if c = '"' then
        (unquote (rest.length + 1) rest []).map (fun p => (JVal.str p.1, p.2))
      else if c = 't' then some (.bool true, rest.drop 3)
      else if c = 'f' then some (.bool false, rest.drop 4)
      else if c = 'n' then some (.null, rest.drop 3)
      else some (.num (String.mk ((c :: rest).takeWhile isNumberChar)),
        (c :: rest).dropWhile isNumberChar)

/-- The fields of `Coaster`, in declaration order. -/
inductive Field
  | name | manufacturer | id | inPark | height
deriving DecidableEq, Repr

/-- The `json` tag of a field. -/
def Field.tag : Field → String
  | .name => "name"
  | .manufacturer => "manufacturer"
  | .id => "id"
  | .inPark => "inPark"
  | .height => "height"

def Field.all : List Field := [.name, .manufacturer, .id, .inPark, .height]

/-- Case folding of object keys: ASCII letters, the long s and the Kelvin sign. -/
def foldChar (c : Char) : Char :=
  if 'a' ≤ c && c ≤ 'z' then Char.ofNat (c.toNat - 32)
  else if c.toNat = 0x17F then 'S'
  else if c.toNat = 0x212A then 'K'
  else c

def foldName (s : String) : List Char := s.data.map foldChar

/-- The field an object key is stored in: an exact match of the tag, else the first match up
to case. -/
def findField (key : String) : Option Field :=
  match Field.all.find? (fun f => f.tag = key) with
  | some f => some f
  | none => Field.all.find? (fun f => foldName f.tag = foldName key)

/-- The function `strconv.ParseInt(s, 10, 64)` on the literal of a JSON number. -/
def parseInt64 (lit : String) : Option Int :=
  let (neg, ds) :=
    match lit.data with
    | '-' :: ds => (true, ds)
    | ds => (false, ds)
  if ds.isEmpty || !(ds.all isDigit09) then none
  else
    let n : Nat := ds.foldl (fun acc d => acc * 10 + (d.toNat - 48)) 0
    let v : Int := if neg then -(n : Int) else (n : Int)
    if -(2 : Int) ^ 63 ≤ v ∧ v < (2 : Int) ^ 63 then some v else none

/-- The word `UnmarshalTypeError` uses for the kind of a JSON value. -/
def JVal.kind : JVal → String
  | .null => "null"
  | .bool _ => "bool"
  | .num _ => "number"
  | .str _ => "string"
  | .arr _ => "array"
  | .obj _ => "object"

def typeError (value : String) (f : Field) (type : String) : String :=
  "json: cannot unmarshal " ++ value ++ " into Go struct field Coaster." ++ f.tag ++
    " of type " ++ type

/-- Storing one member in its field; the first type error is kept and decoding goes on. -/
def storeField (st : Coaster × Option String) (f : Field) (v : JVal) : Coaster × Option String :=
  let (c, err) := st
  let fail (msg : String) : Coaster × Option String := (c, err.orElse (fun _ => some msg))
  match v with
  | .null => (c, err)
  | .str s =>
    match f with
    | .name => ({ c with Name := s }, err)
    | .manufacturer => ({ c with Manufacturer := s }, err)
    | .id => ({ c with ID := s }, err)
    | .inPark => ({ c with InPark := s }, err)
    | .height => fail (typeError "string" f "int")
  | .num lit =>
    match f with
    | .height =>
      match parseInt64 lit with
      | some i => ({ c with Height := i }, err)
      | none => fail (typeError ("number " ++ lit) f "int")
    | _ => fail (typeError "number" f "string")
  | other => fail (typeError other.kind f (if f = .height then "int" else "string"))

def storeMember (st : Coaster × Option String) (kv : String × JVal) : Coaster × Option String :=
  match findField kv.1 with
  | none => st
  | some f => storeField st f kv.2

/-- The call `json.Unmarshal(data, &coaster)` for a zero `coaster`. -/
def jsonUnmarshal (data : String) : Except String Coaster :=
  match checkValid data.data with
  | some e => .error e
  | none =>
    match parseValue (data.data.length + 1) data.data with
    | none => .error "unexpected end of JSON input"
    | some (.obj kvs, _) =>
      match kvs.foldl storeMember (Coaster.zero, none) with
      | (c, none) => .ok c
      | (_, some e) => .error e
    | some (.null, _) => .ok Coaster.zero
    | some (v, _) =>
      .error ("json: cannot unmarshal " ++ v.kind ++ " into Go value of type main.Coaster")


/-- The JSON string literal Go writes for `s` (HTML-escaping on). -/
def encodeString (s : String) : String :=
  let esc (c : Char) : List Char :=
    if c = '"' then ['\\', '"']
    else if c = '\\' then ['\\', '\\']
    else if c = '\n' then ['\\', 'n']
    else if c = '\r' then ['\\', 'r']
    else if c = '\t' then ['\\', 't']
    else if c.toNat < 0x20 ∨ c = '<' ∨ c = '>' ∨ c = '&' then
      ['\\', 'u', '0', '0', hexDigit (c.toNat / 16), hexDigit (c.toNat % 16)]
    else if c.toNat = 0x2028 then ['\\', 'u', '2', '0', '2', '8']
    else if c.toNat = 0x2029 then ['\\', 'u', '2', '0', '2', '9']
    else [c]
  String.mk ('"' :: (s.data.flatMap esc ++ ['"']))

/-- The call `json.Marshal(coaster)`, which cannot fail on a `Coaster`. -/
def jsonMarshal (c : Coaster) : Except String String :=
  .ok ("\x7b\"name\":" ++ encodeString c.Name ++ ",\"manufacturer\":" ++
    encodeString c.Manufacturer ++ ",\"id\":" ++ encodeString c.ID ++ ",\"inPark\":" ++
    encodeString c.InPark ++ ",\"height\":" ++ SprintfD c.Height ++ "\x7d")

/-- The call `json.Marshal(coasters)` for a non-nil slice. -/
def jsonMarshalSlice (cs : List Coaster) : Except String String :=
  (cs.mapM jsonMarshal).map (fun parts => "[" ++ ",".intercalate parts ++ "]")

/-- The reference instance of `encoding/json`. -/
def EncodingJson : Json :=
  { Unmarshal := jsonUnmarshal, Marshal := jsonMarshal, MarshalSlice := jsonMarshalSlice }

/-! ## Handlers -/

/-- The constructor `newCoasterHandlers`. -/
def newCoasterHandlers : coasterHandlers :=
  { store := AList.insert "id1"
      { Name := "Furry 325", Height := 99, ID := "id1", Manufacturer := "B+M", InPark := "" } ∅ }

/-- The values of the map in the order `range` visits them. -/
def coasterHandlers.values (h : coasterHandlers) : List Coaster :=
  h.store.entries.map (fun e => e.2)

/-- The method `get`. -/
def coasterHandlers.get (J : Json) (h : coasterHandlers) (w : ResponseWriter) (_r : Request) :
    coasterHandlers × ResponseWriter :=
  let coasters := h.values
  match J.MarshalSlice coasters with
  | .error err => (h, (w.Write err).WriteHeader StatusInternalServerError)
  | .ok jsonBytes =>
    (h, ((w.HeaderAdd "content-type" "application/json").Write jsonBytes).WriteHeader StatusOK)

/-- The method `getRandomCoaster`; `rnd` is the random draw, reduced to an index below
`len(ids)` as `rand.Intn(len(ids))` is. -/
def coasterHandlers.getRandomCoaster (h : coasterHandlers) (w : ResponseWriter) (_r : Request)
    (rnd : Nat) : coasterHandlers × ResponseWriter :=
  let ids := h.values.map (fun coaster => coaster.ID)
  if hlen : ids.length = 0 then
    (h, w.WriteHeader StatusNotFound)
  else
    let target :=
      if ids.length = 1 then ids.get ⟨0, Nat.pos_of_ne_zero hlen⟩
      else ids.get ⟨rnd % ids.length, Nat.mod_lt _ (Nat.pos_of_ne_zero hlen)⟩
    (h, (w.HeaderAdd "location" ("/coasters/" ++ target)).WriteHeader StatusFound)

/-- The loop of `getCoaster`: the first visited record whose id is `id`, else the zero value. -/
def findCoaster (id : String) : List Coaster → Coaster
  | [] => Coaster.zero
  | coaster :: rest => if coaster.ID = id then coaster else findCoaster id rest

/-- The method `getCoaster`. -/
def coasterHandlers.getCoaster (J : Json) (h : coasterHandlers) (w : ResponseWriter)
    (r : Request) (rnd : Nat) : coasterHandlers × ResponseWriter :=
  let parts := SplitSlash r.URL
  if parts.length ≠ 3 then
    (h, (w.WriteHeader StatusNotFound).Write "Incorrect path")
  else if parts.getD 2 "" = "random" then
    h.getRandomCoaster w r rnd
  else
    let returnCoaster := findCoaster (parts.getD 2 "") h.values
    match J.Marshal returnCoaster with
    | .error err => (h, (w.Write err).WriteHeader StatusInternalServerError)
    | .ok jsonBytes =>
      (h, ((w.HeaderAdd "content-type" "application/json").Write jsonBytes).WriteHeader StatusOK)

/-- The method `post`; `now` is the reading of `time.Now().UnixNano()`. -/
def coasterHandlers.post (J : Json) (h : coasterHandlers) (w : ResponseWriter) (r : Request)
    (now : Int) : coasterHandlers × ResponseWriter :=
  match r.Body with
  | .error err => (h, (w.Write err).WriteHeader StatusInternalServerError)
  | .ok bodyBytes =>
    match J.Unmarshal bodyBytes with
    | .error err => (h, (w.Write err).WriteHeader StatusBadRequest)
    | .ok coaster =>
      let ct := r.ContentType
      if ct ≠ "application/json" then
        (h, (w.WriteHeader StatusUnsupportedMediaType).Write
          ("need content-type 'application/json', but got '" ++ ct ++ "'"))
      else
        let coaster := { coaster with ID := SprintfD now }
        ({ h with store := h.store.insert coaster.ID coaster }, w)

/-- The method `coasters`. -/
def coasterHandlers.coasters (J : Json) (h : coasterHandlers) (w : ResponseWriter) (r : Request)
    (now : Int) : coasterHandlers × ResponseWriter :=
  if r.Method = "GET" then h.get J w r
  else if r.Method = "POST" then h.post J w r now
  else (h, (w.WriteHeader StatusMethodNotAllowed).Write "Method not allowed")

/-- The method `handler` of the admin portal. -/
def adminPortal.handler (a : adminPortal) (w : ResponseWriter) (r : Request) : ResponseWriter :=
  match r.BasicAuth with
  | none => (w.WriteHeader StatusUnauthorized).Write "401 Unauthorized"
  | some (user, pass) =>
    if user ≠ "admin" ∨ pass ≠ a.password then
      (w.WriteHeader StatusUnauthorized).Write "401 Unauthorized"
    else
      w.Write "<H1>something super secret<H1>"

/-- The constructor `newAdminPortal`; `password` is the value of `os.Getenv("ADMIN_PASSWORD")`,
and `none` stands for the panic on an empty value. -/
def newAdminPortal (password : String) : Option adminPortal :=
  if password = "" then none else some { password := password }

/-! ## The server as a transition system -/

/-- A call of one of the handlers, with the clock reading or random draw it consumes.  The
routes of `main` reach `coasters`, `getCoaster` and the admin handler; `getRandomCoaster` is
also listed as a call of its own. -/
inductive Call
  | coasters (r : Request) (now : Int)
  | getCoaster (r : Request) (rnd : Nat)
  | getRandomCoaster (r : Request) (rnd : Nat)
  | admin (r : Request)

/-- Serving one call on a fresh response writer: the handlers afterwards and the response. -/
def serve (J : Json) (a : adminPortal) (h : coasterHandlers) : Call → coasterHandlers × Response
  | .coasters r now => ((h.coasters J ResponseWriter.new r now).1,
      (h.coasters J ResponseWriter.new r now).2.finish)
  | .getCoaster r rnd => ((h.getCoaster J ResponseWriter.new r rnd).1,
      (h.getCoaster J ResponseWriter.new r rnd).2.finish)
  | .getRandomCoaster r rnd => ((h.getRandomCoaster ResponseWriter.new r rnd).1,
      (h.getRandomCoaster ResponseWriter.new r rnd).2.finish)
  | .admin r => (h, (a.handler ResponseWriter.new r).finish)

/-- The handler states that can arise: the initial one, the state after any call, and any
other iteration order of the same map. -/
inductive Reachable (J : Json) (a : adminPortal) : coasterHandlers → Prop
  | init : Reachable J a newCoasterHandlers
  | call {h : coasterHandlers} (c : Call) : Reachable J a h → Reachable J a (serve J a h c).1
  | reorder {h h' : coasterHandlers} : Reachable J a h →
      h'.store.entries.Perm h.store.entries → Reachable J a h'

/-- The store invariant: every record is stored under its own, non-empty id. -/
def StoreInvariant (h : coasterHandlers) : Prop :=
  ∀ key coaster, h.store.lookup key = some coaster → coaster.ID = key ∧ coaster.ID ≠ ""

/-- A POST that succeeds: the body is read, parses as a `Coaster`, and the content type is
`application/json`. -/
def SuccessfulPost (J : Json) (r : Request) : Prop :=
  r.Method = "POST" ∧ r.ContentType = "application/json" ∧
    ∃ bodyBytes coaster, r.Body = .ok bodyBytes ∧ J.Unmarshal bodyBytes = .ok coaster

/-- The handler states after successful POSTs on the collection path, starting from
`newCoasterHandlers`; the list holds the clock readings of the POSTs, latest first. -/
inductive AfterPosts (J : Json) : List Int → coasterHandlers → Prop
  | init : AfterPosts J [] newCoasterHandlers
  | post {clocks : List Int} {h : coasterHandlers} (r : Request) (now : Int) :
      AfterPosts J clocks h → SuccessfulPost J r →
      AfterPosts J (now :: clocks) (h.coasters J ResponseWriter.new r now).1
  | reorder {clocks : List Int} {h h' : coasterHandlers} : AfterPosts J clocks h →
      h'.store.entries.Perm h.store.entries → AfterPosts J clocks h'

/-- The value a list of decimal digit characters, least significant first, stands for. -/
def valueRev : List Char → Nat
  | [] => 0
  | c :: cs => (c.toNat - 48) + 10 * valueRev cs

/-- The seed record of `newCoasterHandlers`. -/
def seedCoaster : Coaster :=
  { Name := "Furry 325", Height := 99, ID := "id1", Manufacturer := "B+M", InPark := "" }

/-- A GET request on the collection path. -/
def getCoasters : Request :=
  { Method := "GET", URL := "/coasters", ContentType := "", Body := .ok "", BasicAuth := none }

/-- A POST request on the collection path with the given content type and body. -/
def postCoasters (contentType body : String) : Request :=
  { Method := "POST", URL := "/coasters", ContentType := contentType, Body := .ok body,
    BasicAuth := none }

/-- A GET request on an item path. -/
def getItem (url : String) : Request :=
  { Method := "GET", URL := url, ContentType := "", Body := .ok "", BasicAuth := none }

/-- A GET request on the admin path with the given result of `r.BasicAuth()`. -/
def getAdmin (auth : Option (String × String)) : Request :=
  { Method := "GET", URL := "/admin", ContentType := "", Body := .ok "", BasicAuth := auth }

/-- Equality of results of `json.Marshal` is decidable. -/
instance : DecidableEq (Except String String) := fun a b =>
  match a, b with
  | .ok x, .ok y =>
    if h : x = y then isTrue (by rw [h]) else isFalse (fun e => h (by cases e; rfl))
  | .error x, .error y =>
    if h : x = y then isTrue (by rw [h]) else isFalse (fun e => h (by cases e; rfl))
  | .ok _, .error _ => isFalse (fun e => by cases e)
  | .error _, .ok _ => isFalse (fun e => by cases e)

/-! ## Example runs -/

/-- The admin portal used in the examples. -/
def exampleAdmin : adminPortal := { password := "s3cret" }

/-- The handlers after one POST of an empty JSON object at clock reading
1600000000000000000. -/
def afterOnePost : coasterHandlers :=
  (newCoasterHandlers.coasters EncodingJson ResponseWriter.new
    (postCoasters "application/json" "\x7b\x7d") 1600000000000000000).1

/-- The handlers after two POSTs of an empty JSON object that read the clock values
1600000000000000000 and 1600000000000001000. -/
def afterTwoPosts : coasterHandlers :=
  (afterOnePost.coasters EncodingJson ResponseWriter.new
    (postCoasters "application/json" "\x7b\x7d") 1600000000000001000).1

/-- The handlers after two POSTs of an empty JSON object that both read the clock value
1600000000000000000. -/
def afterSameClockTwice : coasterHandlers :=
  (afterOnePost.coasters EncodingJson ResponseWriter.new
    (postCoasters "application/json" "\x7b\x7d") 1600000000000000000).1

/-- A request body that supplies the id `1600000000000000000`. -/
def clockIdBody : String := "\x7b\"id\":\"1600000000000000000\"\x7d"

/-! ## Decimal text and splitting -/

theorem digitChar_toNat (d : Nat) (hd : d < 10) : (digitChar d).toNat = 48 + d := by
  interval_cases d <;> rfl

theorem valueRev_decimalRev (fuel n : Nat) (h : n < fuel) : valueRev (decimalRev fuel n) = n := by
  induction fuel generalizing n with
  | zero => omega
  | succ fuel ih =>
    unfold decimalRev
    split
    · rename_i h10
      simp [valueRev, digitChar_toNat n h10]
    · rename_i h10
      have hlt : n / 10 < fuel := by omega
      simp only [valueRev, ih (n / 10) hlt, digitChar_toNat (n % 10) (Nat.mod_lt _ (by norm_num))]
      omega

theorem decimalRev_isDigit (fuel n : Nat) :
    ∀ c ∈ decimalRev fuel n, ∃ d, d < 10 ∧ c = digitChar d := by
  induction fuel generalizing n with
  | zero => intro c hc; simp [decimalRev] at hc
  | succ fuel ih =>
    intro c hc
    unfold decimalRev at hc
    split at hc
    · rename_i h10
      simp at hc
      exact ⟨n, h10, hc⟩
    · simp at hc
      rcases hc with hc | hc
      · exact ⟨n % 10, Nat.mod_lt _ (by norm_num), hc⟩
      · exact ih _ c hc

theorem decimalRev_ne_nil (fuel n : Nat) : decimalRev (fuel + 1) n ≠ [] := by
  unfold decimalRev
  split <;> simp

theorem formatNat_injective : Function.Injective formatNat := by
  intro a b h
  unfold formatNat at h
  have h1 : decimalRev (a + 1) a = decimalRev (b + 1) b := by
    have := congrArg String.data h
    simpa using this
  have h2 := congrArg valueRev h1
  rwa [valueRev_decimalRev _ _ (Nat.lt_succ_self a),
    valueRev_decimalRev _ _ (Nat.lt_succ_self b)] at h2

theorem formatNat_chars (n : Nat) :
    ∀ c ∈ (formatNat n).data, ∃ d, d < 10 ∧ c = digitChar d := by
  intro c hc
  unfold formatNat at hc
  simp only [List.mem_reverse] at hc
  exact decimalRev_isDigit _ _ c hc

theorem formatNat_ne_empty (n : Nat) : (formatNat n).data ≠ [] := by
  unfold formatNat
  simpa using decimalRev_ne_nil n n

theorem digitChar_ne (c : Char) (hc : c.toNat < 48 ∨ 57 < c.toNat) (d : Nat) (hd : d < 10) :
    c ≠ digitChar d := by
  intro h
  rw [h, digitChar_toNat d hd] at hc
  omega

theorem SprintfD_injective : Function.Injective SprintfD := by
  intro a b h
  cases a with
  | ofNat a =>
    cases b with
    | ofNat b => simp only [SprintfD] at h; rw [formatNat_injective h]
    | negSucc b =>
      simp only [SprintfD] at h
      have hm : '-' ∈ (formatNat a).data := by rw [h]; simp
      obtain ⟨d, hd, hc⟩ := formatNat_chars a _ hm
      exact absurd hc (digitChar_ne '-' (by decide) d hd)
  | negSucc a =>
    cases b with
    | ofNat b =>
      simp only [SprintfD] at h
      have hm : '-' ∈ (formatNat b).data := by rw [← h]; simp
      obtain ⟨d, hd, hc⟩ := formatNat_chars b _ hm
      exact absurd hc (digitChar_ne '-' (by decide) d hd)
    | negSucc b =>
      simp only [SprintfD] at h
      have h1 : (formatNat (a + 1)).data = (formatNat (b + 1)).data := by
        have := congrArg String.data h
        simpa using this
      have h2 : formatNat (a + 1) = formatNat (b + 1) := String.ext h1
      have := formatNat_injective h2
      have : a = b := by omega
      rw [this]

theorem SprintfD_chars (i : Int) :
    ∀ c ∈ (SprintfD i).data, c = '-' ∨ ∃ d, d < 10 ∧ c = digitChar d := by
  intro c hc
  cases i with
  | ofNat n => exact Or.inr (formatNat_chars n c hc)
  | negSucc n =>
    simp only [SprintfD, List.mem_cons] at hc
    rcases hc with hc | hc
    · exact Or.inl hc
    · exact Or.inr (formatNat_chars _ c hc)

theorem SprintfD_ne_empty (i : Int) : SprintfD i ≠ "" := by
  intro h
  have hd := congrArg String.data h
  cases i with
  | ofNat n => exact formatNat_ne_empty n hd
  | negSucc n => simp [SprintfD] at hd

theorem SprintfD_ne_id1 (i : Int) : SprintfD i ≠ "id1" := by
  intro h
  have hm : 'i' ∈ (SprintfD i).data := by rw [h]; decide
  rcases SprintfD_chars i _ hm with hc | ⟨d, hd, hc⟩
  · exact absurd hc (by decide)
  · exact absurd hc (digitChar_ne 'i' (by decide) d hd)

theorem splitChars_length (sep : Char) (cs : List Char) :
    (splitChars sep cs).length = cs.count sep + 1 := by
  induction cs with
  | nil => simp [splitChars]
  | cons c cs ih =>
    unfold splitChars
    by_cases h : c = sep
    · subst h
      simp [ih]
    · rw [if_neg h, List.count_cons_of_ne (fun e => h e.symm)]
      cases hs : splitChars sep cs with
      | nil => rw [hs] at ih; simp at ih
      | cons p ps => rw [hs] at ih; simpa using ih

theorem SplitSlash_length (s : String) : (SplitSlash s).length = s.data.count '/' + 1 := by
  simp [SplitSlash, splitChars_length]

/-! ## Response writer -/

theorem finish_new : ResponseWriter.new.finish = ⟨200, [], ""⟩ := rfl

theorem finish_writeHeader (code : Nat) :
    (ResponseWriter.new.WriteHeader code).finish = ⟨code, [], ""⟩ := rfl

theorem finish_write (data : String) :
    (ResponseWriter.new.Write data).finish = ⟨200, [], data⟩ := by
  simp [ResponseWriter.new, ResponseWriter.Write, ResponseWriter.WriteHeader,
    ResponseWriter.finish, bodyAllowedForStatus, StatusOK]

theorem finish_write_writeHeader (data : String) (code : Nat) :
    ((ResponseWriter.new.Write data).WriteHeader code).finish = ⟨200, [], data⟩ := by
  simp [ResponseWriter.new, ResponseWriter.Write, ResponseWriter.WriteHeader,
    ResponseWriter.finish, bodyAllowedForStatus, StatusOK]

theorem finish_writeHeader_write (code : Nat) (data : String)
    (hcode : bodyAllowedForStatus code = true) :
    ((ResponseWriter.new.WriteHeader code).Write data).finish = ⟨code, [], data⟩ := by
  simp [ResponseWriter.new, ResponseWriter.Write, ResponseWriter.WriteHeader,
    ResponseWriter.finish, hcode]

theorem finish_header_write_writeHeader (key value data : String) (code : Nat) :
    (((ResponseWriter.new.HeaderAdd key value).Write data).WriteHeader code).finish =
      ⟨200, [(key, value)], data⟩ := by
  simp [ResponseWriter.new, ResponseWriter.Write, ResponseWriter.WriteHeader,
    ResponseWriter.finish, ResponseWriter.HeaderAdd, bodyAllowedForStatus, StatusOK]

theorem finish_header_writeHeader (key value : String) (code : Nat) :
    ((ResponseWriter.new.HeaderAdd key value).WriteHeader code).finish =
      ⟨code, [(key, value)], ""⟩ := rfl

/-! ## The reference instance never fails to serialise -/

theorem jsonMarshal_ok (c : Coaster) : ∃ jsonBytes, EncodingJson.Marshal c = .ok jsonBytes :=
  ⟨_, rfl⟩

theorem mapM_jsonMarshal_ok (cs : List Coaster) :
    ∃ parts, cs.mapM jsonMarshal = Except.ok parts := by
  induction cs with
  | nil => exact ⟨[], rfl⟩
  | cons c cs ih =>
    obtain ⟨parts, hparts⟩ := ih
    obtain ⟨b, hb⟩ := jsonMarshal_ok c
    refine ⟨b :: parts, ?_⟩
    rw [List.mapM_cons]
    have hb' : jsonMarshal c = Except.ok b := hb
    rw [hb', hparts]
    rfl

theorem jsonMarshalSlice_ok (cs : List Coaster) :
    ∃ jsonBytes, EncodingJson.MarshalSlice cs = .ok jsonBytes := by
  obtain ⟨parts, hparts⟩ := mapM_jsonMarshal_ok cs
  refine ⟨"[" ++ ",".intercalate parts ++ "]", ?_⟩
  show jsonMarshalSlice cs = _
  unfold jsonMarshalSlice
  rw [hparts]
  rfl

/-! ## The store and the handlers -/

theorem values_length (h : coasterHandlers) : h.values.length = h.store.keys.length := by
  simp [coasterHandlers.values, AList.keys, List.keys]

theorem post_successful (J : Json) (h : coasterHandlers) (w : ResponseWriter) (r : Request)
    (now : Int) (bodyBytes : String) (coaster : Coaster) (hbody : r.Body = .ok bodyBytes)
    (hparse : J.Unmarshal bodyBytes = .ok coaster) (hct : r.ContentType = "application/json") :
    h.post J w r now =
      ({ store := h.store.insert (SprintfD now) { coaster with ID := SprintfD now } }, w) := by
  simp [coasterHandlers.post, hbody, hparse, hct]

theorem coasters_successful (J : Json) (h : coasterHandlers) (w : ResponseWriter) (r : Request)
    (now : Int) (hr : SuccessfulPost J r) :
    ∃ coaster : Coaster, h.coasters J w r now =
      ({ store := h.store.insert (SprintfD now) { coaster with ID := SprintfD now } }, w) := by
  obtain ⟨hm, hct, bodyBytes, coaster, hbody, hparse⟩ := hr
  refine ⟨coaster, ?_⟩
  have hne : r.Method ≠ "GET" := by rw [hm]; decide
  unfold coasterHandlers.coasters
  rw [if_neg hne, if_pos hm]
  exact post_successful J h w r now bodyBytes coaster hbody hparse hct

theorem afterPosts_keys (J : Json) (clocks : List Int) (h : coasterHandlers)
    (hrun : AfterPosts J clocks h) :
    ∀ key, key ∈ h.store ↔ key = "id1" ∨ key ∈ clocks.map SprintfD := by
  induction hrun with
  | init =>
    intro key
    show key ∈ AList.insert "id1" _ ∅ ↔ _
    rw [AList.mem_insert]
    simp [AList.not_mem_empty]
  | post r now _ hr ih =>
    intro key
    obtain ⟨coaster, hc⟩ := coasters_successful J _ ResponseWriter.new r now hr
    rw [hc]
    simp only [AList.mem_insert, ih key, List.map_cons, List.mem_cons]
    tauto
  | reorder _ hperm ih =>
    intro key
    rw [AList.mem_of_perm hperm]
    exact ih key

theorem afterPosts_length (J : Json) (clocks : List Int) (h : coasterHandlers)
    (hrun : AfterPosts J clocks h) (hclocks : clocks.Nodup) :
    h.values.length = clocks.length + 1 := by
  have hkeys := afterPosts_keys J clocks h hrun
  have hnd : ("id1" :: clocks.map SprintfD).Nodup := by
    rw [List.nodup_cons]
    refine ⟨?_, hclocks.map SprintfD_injective⟩
    intro hmem
    obtain ⟨i, _, hi⟩ := List.mem_map.mp hmem
    exact SprintfD_ne_id1 i hi
  have hperm : h.store.keys.Perm ("id1" :: clocks.map SprintfD) := by
    rw [List.perm_ext_iff_of_nodup (AList.keys_nodup h.store) hnd]
    intro key
    rw [List.mem_cons]
    exact hkeys key
  rw [values_length, hperm.length_eq]
  simp

theorem get_response (J : Json) (h : coasterHandlers) (r : Request) (now : Int)
    (hget : r.Method = "GET") (jsonBytes : String)
    (hjson : J.MarshalSlice h.values = .ok jsonBytes) :
    (h.coasters J ResponseWriter.new r now).2.finish =
      ⟨200, [("content-type", "application/json")], jsonBytes⟩ := by
  simp only [coasterHandlers.coasters, hget, if_true, coasterHandlers.get, hjson]
  exact finish_header_write_writeHeader _ _ _ _

/-! ## C1: the collection after N successful POSTs -/

theorem successfulPost_empty_object :
    SuccessfulPost EncodingJson (postCoasters "application/json" "\x7b\x7d") :=
  ⟨rfl, rfl, "\x7b\x7d", Coaster.zero, rfl, rfl⟩

/-- C1 (amended): after N successful POSTs on the collection path whose clock readings are
pairwise distinct, the store holds exactly N+1 records, and a following GET on the collection
path answers 200 with the serialisation of the array of exactly these N+1 records. -/
theorem get_after_distinct_posts (J : Json) (clocks : List Int) (h : coasterHandlers)
    (r : Request) (now : Int) (jsonBytes : String)
    (hrun : AfterPosts J clocks h) (hclocks : clocks.Nodup) (hget : r.Method = "GET")
    (hjson : J.MarshalSlice h.values = .ok jsonBytes) :
    h.values.length = clocks.length + 1 ∧
    (h.coasters J ResponseWriter.new r now).2.finish =
      ⟨200, [("content-type", "application/json")], jsonBytes⟩ :=
  ⟨afterPosts_length J clocks h hrun hclocks, get_response J h r now hget jsonBytes hjson⟩

/-- Witness of C1 (amended): two POSTs at two different clock readings, then a GET that lists
three records. -/
theorem get_after_distinct_posts_witness :
    afterTwoPosts.values.length =
      [(1600000000000001000 : Int), 1600000000000000000].length + 1 ∧
    (afterTwoPosts.coasters EncodingJson ResponseWriter.new getCoasters 9).2.finish =
      ⟨200, [("content-type", "application/json")],
        "[\x7b\"name\":\"\",\"manufacturer\":\"\",\"id\":\"1600000000000001000\"," ++
        "\"inPark\":\"\",\"height\":0\x7d," ++
        "\x7b\"name\":\"\",\"manufacturer\":\"\",\"id\":\"1600000000000000000\"," ++
        "\"inPark\":\"\",\"height\":0\x7d," ++
        "\x7b\"name\":\"Furry 325\",\"manufacturer\":\"B+M\",\"id\":\"id1\",\"inPark\":\"\"," ++
        "\"height\":99\x7d]"⟩ :=
  get_after_distinct_posts EncodingJson [1600000000000001000, 1600000000000000000] afterTwoPosts
    getCoasters 9 _
    (AfterPosts.post _ 1600000000000001000
      (AfterPosts.post _ 1600000000000000000 AfterPosts.init successfulPost_empty_object)
      successfulPost_empty_object)
    (by simp) rfl (by decide!)

/-- Counterexample to C1 as stated: two successful POSTs that both read the clock value
1600000000000000000 leave two records in the store, and the following GET lists two records,
not three. -/
theorem get_after_equal_clocks :
    AfterPosts EncodingJson [1600000000000000000, 1600000000000000000] afterSameClockTwice ∧
    afterSameClockTwice.values.length = 2 ∧
    afterSameClockTwice.values.length ≠
      [(1600000000000000000 : Int), 1600000000000000000].length + 1 ∧
    (afterSameClockTwice.coasters EncodingJson ResponseWriter.new getCoasters 9).2.finish =
      ⟨200, [("content-type", "application/json")],
        "[\x7b\"name\":\"\",\"manufacturer\":\"\",\"id\":\"1600000000000000000\"," ++
        "\"inPark\":\"\",\"height\":0\x7d," ++
        "\x7b\"name\":\"Furry 325\",\"manufacturer\":\"B+M\",\"id\":\"id1\",\"inPark\":\"\"," ++
        "\"height\":99\x7d]"⟩ :=
  ⟨AfterPosts.post _ 1600000000000000000
      (AfterPosts.post _ 1600000000000000000 AfterPosts.init successfulPost_empty_object)
      successfulPost_empty_object, by decide, by decide, by decide!⟩

/-! ## C2: the store invariant -/

theorem get_fst (J : Json) (h : coasterHandlers) (w : ResponseWriter) (r : Request) :
    (h.get J w r).1 = h := by
  dsimp only [coasterHandlers.get]
  split <;> rfl

theorem getRandomCoaster_fst (h : coasterHandlers) (w : ResponseWriter) (r : Request)
    (rnd : Nat) : (h.getRandomCoaster w r rnd).1 = h := by
  dsimp only [coasterHandlers.getRandomCoaster]
  split <;> rfl

theorem getCoaster_fst (J : Json) (h : coasterHandlers) (w : ResponseWriter) (r : Request)
    (rnd : Nat) : (h.getCoaster J w r rnd).1 = h := by
  dsimp only [coasterHandlers.getCoaster]
  split
  · rfl
  · split
    · exact getRandomCoaster_fst h w r rnd
    · split <;> rfl

theorem post_fst (J : Json) (h : coasterHandlers) (w : ResponseWriter) (r : Request)
    (now : Int) :
    (h.post J w r now).1 = h ∨
    ∃ bodyBytes coaster, r.Body = .ok bodyBytes ∧ J.Unmarshal bodyBytes = .ok coaster ∧
      r.ContentType = "application/json" ∧
      (h.post J w r now).1 =
        { store := h.store.insert (SprintfD now) { coaster with ID := SprintfD now } } := by
  cases hbody : r.Body with
  | error err => left; simp [coasterHandlers.post, hbody]
  | ok bodyBytes =>
    cases hparse : J.Unmarshal bodyBytes with
    | error err => left; simp [coasterHandlers.post, hbody, hparse]
    | ok coaster =>
      by_cases hct : r.ContentType = "application/json"
      · right
        exact ⟨bodyBytes, coaster, rfl, hparse, hct,
          by rw [post_successful J h w r now bodyBytes coaster hbody hparse hct]⟩
      · left; simp [coasterHandlers.post, hbody, hparse, hct]

theorem serve_fst (J : Json) (a : adminPortal) (h : coasterHandlers) (c : Call) :
    (serve J a h c).1 = h ∨
    ∃ (now : Int) (coaster : Coaster), (serve J a h c).1 =
      { store := h.store.insert (SprintfD now) { coaster with ID := SprintfD now } } := by
  cases c with
  | coasters r now =>
    simp only [serve, coasterHandlers.coasters]
    split
    · left; exact get_fst J h _ r
    · split
      · rcases post_fst J h ResponseWriter.new r now with hp | ⟨_, coaster, _, _, _, hp⟩
        · left; exact hp
        · right; exact ⟨now, coaster, hp⟩
      · left; rfl
  | getCoaster r rnd => left; exact getCoaster_fst J h _ r rnd
  | getRandomCoaster r rnd => left; exact getRandomCoaster_fst h _ r rnd
  | admin r => left; rfl

theorem storeInvariant_new : StoreInvariant newCoasterHandlers := by
  intro key coaster hl
  have hmem : key ∈ newCoasterHandlers.store := by
    rw [← AList.lookup_isSome, hl]; rfl
  have hkey : key = "id1" := by
    have : key ∈ AList.insert "id1" seedCoaster ∅ := hmem
    rw [AList.mem_insert] at this
    simpa [AList.not_mem_empty] using this
  subst hkey
  have hc : coaster = seedCoaster := by
    have h1 : newCoasterHandlers.store.lookup "id1" = some seedCoaster := AList.lookup_insert _
    rw [hl] at h1
    exact Option.some.inj h1
  subst hc
  exact ⟨rfl, by decide⟩

theorem storeInvariant_insert (h : coasterHandlers) (now : Int) (coaster : Coaster)
    (hinv : StoreInvariant h) :
    StoreInvariant
      { store := h.store.insert (SprintfD now) { coaster with ID := SprintfD now } } := by
  intro key stored hl
  by_cases hk : key = SprintfD now
  · subst hk
    simp only [AList.lookup_insert] at hl
    have hs := Option.some.inj hl
    rw [← hs]
    exact ⟨rfl, SprintfD_ne_empty now⟩
  · simp only [AList.lookup_insert_ne hk] at hl
    exact hinv key stored hl

theorem storeInvariant_reachable (J : Json) (a : adminPortal) (h : coasterHandlers)
    (hreach : Reachable J a h) : StoreInvariant h := by
  induction hreach with
  | init => exact storeInvariant_new
  | call c _ ih =>
    rcases serve_fst J a _ c with hs | ⟨now, coaster, hs⟩
    · rw [hs]; exact ih
    · rw [hs]; exact storeInvariant_insert _ now coaster ih
  | reorder _ hperm ih =>
    intro key coaster hl
    rw [AList.perm_lookup hperm] at hl
    exact ih key coaster hl

theorem ids_eq_keys (h : coasterHandlers) (hinv : StoreInvariant h) :
    h.values.map (fun coaster => coaster.ID) = h.store.keys := by
  simp only [coasterHandlers.values, List.map_map, AList.keys, List.keys]
  apply List.map_congr_left
  intro e he
  have hl : h.store.lookup e.1 = some e.2 := by
    have : e.2 ∈ h.store.lookup e.1 := AList.mem_lookup_iff.mpr (by simpa using he)
    simpa using this
  exact (hinv e.1 e.2 hl).1

/-- C2: in the initial store and in every store reachable from it by handler calls, every
record is stored under its own id, that id is not empty, and no two records carry the same
id. -/
theorem reachable_ids_are_keys (J : Json) (a : adminPortal) (h : coasterHandlers)
    (hreach : Reachable J a h) :
    (∀ key coaster, h.store.lookup key = some coaster →
      coaster.ID = key ∧ coaster.ID ≠ "") ∧
    (h.values.map (fun coaster => coaster.ID)).Nodup := by
  have hinv := storeInvariant_reachable J a h hreach
  refine ⟨hinv, ?_⟩
  rw [ids_eq_keys h hinv]
  exact AList.keys_nodup h.store

/-- Witness of C2: the store after two POSTs, an item lookup and an admin call holds three
records with three different ids, each stored under its id. -/
theorem reachable_ids_are_keys_witness :
    (afterTwoPosts.store.lookup "id1" = some seedCoaster → seedCoaster.ID = "id1" ∧
      seedCoaster.ID ≠ "") ∧
    (afterTwoPosts.values.map (fun coaster => coaster.ID)).Nodup :=
  ⟨(reachable_ids_are_keys EncodingJson exampleAdmin afterTwoPosts
      (Reachable.call (.admin (getAdmin none))
        (Reachable.call (.getCoaster (getItem "/coasters/random") 3)
          (Reachable.call
            (.coasters (postCoasters "application/json" "\x7b\x7d") 1600000000000001000)
            (Reachable.call
              (.coasters (postCoasters "application/json" "\x7b\x7d") 1600000000000000000)
              Reachable.init))))).1 "id1" seedCoaster,
    (reachable_ids_are_keys EncodingJson exampleAdmin afterTwoPosts
      (Reachable.call (.admin (getAdmin none))
        (Reachable.call (.getCoaster (getItem "/coasters/random") 3)
          (Reachable.call
            (.coasters (postCoasters "application/json" "\x7b\x7d") 1600000000000001000)
            (Reachable.call
              (.coasters (postCoasters "application/json" "\x7b\x7d") 1600000000000000000)
              Reachable.init))))).2⟩

/-! ## C3, C4, C5: the POST handler -/

theorem coasters_post (J : Json) (h : coasterHandlers) (w : ResponseWriter) (r : Request)
    (now : Int) (hpost : r.Method = "POST") : h.coasters J w r now = h.post J w r now := by
  have hne : r.Method ≠ "GET" := by rw [hpost]; decide
  unfold coasterHandlers.coasters
  rw [if_neg hne, if_pos hpost]

/-- C3 (amended): a successful POST stores, under the decimal text of the clock reading, the
parsed record with its id replaced by that text, whatever id the body supplied.  When the
supplied id is not that decimal text, the stored id differs from it and the POST stores nothing
under the supplied id. -/
theorem post_stores_clock_id (J : Json) (h : coasterHandlers) (r : Request) (now : Int)
    (bodyBytes : String) (coaster : Coaster) (hpost : r.Method = "POST")
    (hbody : r.Body = .ok bodyBytes) (hparse : J.Unmarshal bodyBytes = .ok coaster)
    (hct : r.ContentType = "application/json") :
    (h.coasters J ResponseWriter.new r now).1.store.lookup (SprintfD now) =
      some { coaster with ID := SprintfD now } ∧
    (coaster.ID ≠ SprintfD now →
      ({ coaster with ID := SprintfD now } : Coaster).ID ≠ coaster.ID ∧
      (h.coasters J ResponseWriter.new r now).1.store.lookup coaster.ID =
        h.store.lookup coaster.ID) := by
  rw [coasters_post J h _ r now hpost,
    post_successful J h _ r now bodyBytes coaster hbody hparse hct]
  exact ⟨AList.lookup_insert _,
    fun hne => ⟨fun heq => hne heq.symm, AList.lookup_insert_ne hne⟩⟩

/-- Witness of C3 (amended): a body that supplies the id `abc`, posted at clock reading
1600000000000000000, is stored under the decimal text of that reading. -/
theorem post_stores_clock_id_witness :
    (newCoasterHandlers.coasters EncodingJson ResponseWriter.new
      (postCoasters "application/json" "\x7b\"id\":\"abc\"\x7d")
        1600000000000000000).1.store.lookup (SprintfD 1600000000000000000) =
      some { ({ Coaster.zero with ID := "abc" } : Coaster) with
        ID := SprintfD 1600000000000000000 } :=
  (post_stores_clock_id EncodingJson newCoasterHandlers
    (postCoasters "application/json" "\x7b\"id\":\"abc\"\x7d") 1600000000000000000
    "\x7b\"id\":\"abc\"\x7d" { Coaster.zero with ID := "abc" } rfl rfl rfl rfl).1

/-- Counterexample to C3 as stated: a body that supplies the id `1600000000000000000`,
posted at clock reading 1600000000000000000, is stored with the very id the body supplied. -/
theorem post_keeps_supplied_id :
    EncodingJson.Unmarshal clockIdBody = .ok { Coaster.zero with ID := "1600000000000000000" } ∧
    (serve EncodingJson exampleAdmin newCoasterHandlers
      (.coasters (postCoasters "application/json" clockIdBody) 1600000000000000000)).2 =
        ⟨200, [], ""⟩ ∧
    (serve EncodingJson exampleAdmin newCoasterHandlers
      (.coasters (postCoasters "application/json" clockIdBody)
        1600000000000000000)).1.store.entries =
        [⟨"1600000000000000000", { Coaster.zero with ID := "1600000000000000000" }⟩,
          ⟨"id1", seedCoaster⟩] :=
  ⟨rfl, rfl, rfl⟩

/-- C4 (amended): a POST on the collection path whose body is read without error and parses
as a Coaster record, and whose content-type header is not exactly `application/json`, is
answered 415 with a body naming the received content type, and the store is unchanged. -/
theorem post_wrong_content_type (J : Json) (h : coasterHandlers) (r : Request) (now : Int)
    (bodyBytes : String) (coaster : Coaster) (hpost : r.Method = "POST")
    (hbody : r.Body = .ok bodyBytes) (hparse : J.Unmarshal bodyBytes = .ok coaster)
    (hct : r.ContentType ≠ "application/json") :
    (h.coasters J ResponseWriter.new r now).2.finish =
      ⟨415, [], "need content-type 'application/json', but got '" ++ r.ContentType ++ "'"⟩ ∧
    (h.coasters J ResponseWriter.new r now).1 = h := by
  rw [coasters_post J h _ r now hpost]
  simp only [coasterHandlers.post, hbody, hparse, hct, ne_eq, not_false_eq_true, if_true]
  exact ⟨finish_writeHeader_write _ _ rfl, trivial⟩

/-- Witness of C4 (amended): a well-formed JSON body sent as `text/plain`. -/
theorem post_wrong_content_type_witness :
    (newCoasterHandlers.coasters EncodingJson ResponseWriter.new
      (postCoasters "text/plain" "\x7b\x7d") 1600000000000000000).2.finish =
      ⟨415, [], "need content-type 'application/json', but got '" ++
        (postCoasters "text/plain" "\x7b\x7d").ContentType ++ "'"⟩ ∧
    (newCoasterHandlers.coasters EncodingJson ResponseWriter.new
      (postCoasters "text/plain" "\x7b\x7d") 1600000000000000000).1 = newCoasterHandlers :=
  post_wrong_content_type EncodingJson newCoasterHandlers (postCoasters "text/plain" "\x7b\x7d")
    1600000000000000000
    "\x7b\x7d" Coaster.zero rfl rfl rfl (by decide)

/-- Counterexample to C4 as stated: a POST with content type `text/plain` whose body is the
single character of an opening brace is not answered 415; the body is parsed before the
content type is looked at, and the response carries the parse error. -/
theorem post_wrong_content_type_malformed_body :
    (postCoasters "text/plain" "\x7b").ContentType ≠ "application/json" ∧
    (serve EncodingJson exampleAdmin newCoasterHandlers
      (.coasters (postCoasters "text/plain" "\x7b") 1600000000000000000)).2 =
        ⟨200, [], "unexpected end of JSON input"⟩ ∧
    (serve EncodingJson exampleAdmin newCoasterHandlers
      (.coasters (postCoasters "text/plain" "\x7b") 1600000000000000000)).2.status ≠ 415 :=
  ⟨by decide, rfl, by decide⟩

theorem post_parse_error (J : Json) (h : coasterHandlers) (r : Request) (now : Int)
    (bodyBytes err : String) (hbody : r.Body = .ok bodyBytes)
    (hparse : J.Unmarshal bodyBytes = .error err) :
    (h.post J ResponseWriter.new r now).2.finish = ⟨200, [], err⟩ := by
  simp only [coasterHandlers.post, hbody, hparse]
  exact finish_write_writeHeader err StatusBadRequest

/-- C5, evaluated at the failing input: a POST with content type `application/json` whose body
is the single character of an opening brace is answered with the parse error text as body, but
with status 200: `post` writes the body before it calls `WriteHeader(400)`. -/
theorem post_malformed_body_status :
    (serve EncodingJson exampleAdmin newCoasterHandlers
      (.coasters (postCoasters "application/json" "\x7b") 1600000000000000000)).2 =
        ⟨200, [], "unexpected end of JSON input"⟩ ∧
    (serve EncodingJson exampleAdmin newCoasterHandlers
      (.coasters (postCoasters "application/json" "\x7b") 1600000000000000000)).2.status ≠ 400 :=
  ⟨rfl, by decide⟩

/-! ## C6: item lookup -/

theorem findCoaster_spec (id : String) (coasters : List Coaster) :
    ((∃ c ∈ coasters, c.ID = id) →
      findCoaster id coasters ∈ coasters ∧ (findCoaster id coasters).ID = id) ∧
    ((∀ c ∈ coasters, c.ID ≠ id) → findCoaster id coasters = Coaster.zero) := by
  induction coasters with
  | nil => simp [findCoaster]
  | cons coaster rest ih =>
    by_cases hc : coaster.ID = id
    · simp [findCoaster, hc]
    · constructor
      · rintro ⟨c, hmem, hid⟩
        have hrest : ∃ c ∈ rest, c.ID = id := by
          rcases List.mem_cons.mp hmem with heq | hin
          · exact absurd (heq ▸ hid) hc
          · exact ⟨c, hin, hid⟩
        simp only [findCoaster, if_neg hc]
        exact ⟨List.mem_cons_of_mem _ (ih.1 hrest).1, (ih.1 hrest).2⟩
      · intro hall
        simp only [findCoaster, if_neg hc]
        exact ih.2 (fun c hin => hall c (List.mem_cons_of_mem _ hin))

theorem lookup_of_mem_values (h : coasterHandlers) (hinv : StoreInvariant h) (coaster : Coaster)
    (hmem : coaster ∈ h.values) : h.store.lookup coaster.ID = some coaster := by
  obtain ⟨e, he, rfl⟩ := List.mem_map.mp hmem
  have hl : h.store.lookup e.1 = some e.2 := by
    have : e.2 ∈ h.store.lookup e.1 := AList.mem_lookup_iff.mpr (by simpa using he)
    simpa using this
  rw [(hinv e.1 e.2 hl).1]
  exact hl

theorem getCoaster_lookup (J : Json) (h : coasterHandlers) (w : ResponseWriter) (r : Request)
    (rnd : Nat) (hlen : (SplitSlash r.URL).length = 3)
    (hrandom : (SplitSlash r.URL).getD 2 "" ≠ "random") :
    h.getCoaster J w r rnd =
      match J.Marshal (findCoaster ((SplitSlash r.URL).getD 2 "") h.values) with
      | .error err => (h, (w.Write err).WriteHeader StatusInternalServerError)
      | .ok jsonBytes =>
        (h, ((w.HeaderAdd "content-type" "application/json").Write jsonBytes).WriteHeader
          StatusOK) := by
  simp only [coasterHandlers.getCoaster, hlen, ne_eq, not_true_eq_false, if_false, hrandom]

theorem getCoaster_item_status (J : Json) (h : coasterHandlers) (r : Request) (rnd : Nat)
    (hlen : (SplitSlash r.URL).length = 3)
    (hrandom : (SplitSlash r.URL).getD 2 "" ≠ "random") :
    (h.getCoaster J ResponseWriter.new r rnd).2.finish.status = 200 := by
  rw [getCoaster_lookup J h ResponseWriter.new r rnd hlen hrandom]
  cases hjson : J.Marshal (findCoaster ((SplitSlash r.URL).getD 2 "") h.values) with
  | error err => simp only [finish_write_writeHeader]
  | ok jsonBytes => simp only [finish_header_write_writeHeader]

/-- C6: on a well-formed item path (exactly two separators) whose identifier segment is not
`random`, `getCoaster` answers 200 in every case, never 404; the record it serialises is a
stored record whose id equals the segment when there is one (the record stored under that key
when the store invariant holds), and the zero-valued Coaster otherwise; the body is the JSON
of that record, and the store is unchanged. -/
theorem getCoaster_item (J : Json) (h : coasterHandlers) (r : Request) (rnd : Nat)
    (id : String) (hsep : r.URL.data.count '/' = 2)
    (hid : (SplitSlash r.URL).getD 2 "" = id) (hrandom : id ≠ "random") :
    ((∃ c ∈ h.values, c.ID = id) →
      findCoaster id h.values ∈ h.values ∧ (findCoaster id h.values).ID = id) ∧
    (∀ stored, StoreInvariant h → h.store.lookup id = some stored →
      findCoaster id h.values = stored) ∧
    ((∀ c ∈ h.values, c.ID ≠ id) → findCoaster id h.values = Coaster.zero) ∧
    (∀ jsonBytes, J.Marshal (findCoaster id h.values) = .ok jsonBytes →
      (h.getCoaster J ResponseWriter.new r rnd).2.finish =
        ⟨200, [("content-type", "application/json")], jsonBytes⟩) ∧
    (h.getCoaster J ResponseWriter.new r rnd).2.finish.status = 200 ∧
    (h.getCoaster J ResponseWriter.new r rnd).1 = h := by
  have hlen : (SplitSlash r.URL).length = 3 := by rw [SplitSlash_length, hsep]
  have hrandom' : (SplitSlash r.URL).getD 2 "" ≠ "random" := by rw [hid]; exact hrandom
  have hget := getCoaster_lookup J h ResponseWriter.new r rnd hlen hrandom'
  rw [hid] at hget
  refine ⟨(findCoaster_spec id h.values).1, ?_, (findCoaster_spec id h.values).2, ?_, ?_,
    getCoaster_fst J h _ r rnd⟩
  · intro stored hinv hl
    have hex : ∃ c ∈ h.values, c.ID = id := by
      have hmem : (⟨id, stored⟩ : Sigma fun _ : String => Coaster) ∈ h.store.entries :=
        AList.mem_lookup_iff.mp (by simp [hl])
      exact ⟨stored, List.mem_map.mpr ⟨_, hmem, rfl⟩, (hinv id stored hl).1⟩
    obtain ⟨hmem, hfid⟩ := (findCoaster_spec id h.values).1 hex
    have hl2 := lookup_of_mem_values h hinv _ hmem
    rw [hfid, hl] at hl2
    exact (Option.some.inj hl2).symm
  · intro jsonBytes hjson
    rw [hget, hjson]
    exact finish_header_write_writeHeader "content-type" "application/json" jsonBytes StatusOK
  · exact getCoaster_item_status J h r rnd hlen hrandom'

/-- Witness of C6: after two POSTs, the item path of the seed record is answered 200 with the
JSON of the seed record. -/
theorem getCoaster_item_witness :
    (afterTwoPosts.getCoaster EncodingJson ResponseWriter.new (getItem "/coasters/id1")
      0).2.finish = ⟨200, [("content-type", "application/json")],
        "\x7b\"name\":\"Furry 325\",\"manufacturer\":\"B+M\",\"id\":\"id1\"," ++
        "\"inPark\":\"\",\"height\":99\x7d"⟩ :=
  (getCoaster_item EncodingJson afterTwoPosts (getItem "/coasters/id1") 0 "id1"
    (by decide) (by decide) (by decide)).2.2.2.1 _ (by decide!)

/-! ## C7, C8, C9: random selection, malformed paths, the admin handler -/

theorem getRandomCoaster_empty (h : coasterHandlers) (w : ResponseWriter) (r : Request)
    (rnd : Nat) (hempty : h.values = []) :
    h.getRandomCoaster w r rnd = (h, w.WriteHeader StatusNotFound) := by
  simp [coasterHandlers.getRandomCoaster, hempty]

theorem getRandomCoaster_nonempty (h : coasterHandlers) (w : ResponseWriter) (r : Request)
    (rnd : Nat) (hne : h.values ≠ []) :
    ∃ c ∈ h.values, h.getRandomCoaster w r rnd =
      (h, (w.HeaderAdd "location" ("/coasters/" ++ c.ID)).WriteHeader StatusFound) := by
  have hlen : (h.values.map (fun coaster => coaster.ID)).length ≠ 0 := by
    simpa using hne
  simp only [coasterHandlers.getRandomCoaster, dif_neg hlen]
  split
  · have hm := List.get_mem (h.values.map (fun coaster => coaster.ID)) 0
      (Nat.pos_of_ne_zero hlen)
    obtain ⟨c, hc, hid⟩ := List.mem_map.mp hm
    exact ⟨c, hc, by rw [hid]⟩
  · have hm := List.get_mem (h.values.map (fun coaster => coaster.ID))
      (rnd % (h.values.map (fun coaster => coaster.ID)).length)
      (Nat.mod_lt _ (Nat.pos_of_ne_zero hlen))
    obtain ⟨c, hc, hid⟩ := List.mem_map.mp hm
    exact ⟨c, hc, by rw [hid]⟩

/-- C7: `getRandomCoaster` answers 404 with an empty body when the store is empty; when the
store is not empty it answers 302 with a location header `/coasters/` followed by the id of a
record of the store, for every random draw; and when the store holds exactly one record the id
is the id of that record.  The store is unchanged. -/
theorem getRandomCoaster_response (h : coasterHandlers) (r : Request) (rnd : Nat) :
    (h.values = [] →
      (h.getRandomCoaster ResponseWriter.new r rnd).2.finish = ⟨404, [], ""⟩) ∧
    (h.values ≠ [] → ∃ c ∈ h.values,
      (h.getRandomCoaster ResponseWriter.new r rnd).2.finish =
        ⟨302, [("location", "/coasters/" ++ c.ID)], ""⟩) ∧
    (∀ c, h.values = [c] →
      (h.getRandomCoaster ResponseWriter.new r rnd).2.finish =
        ⟨302, [("location", "/coasters/" ++ c.ID)], ""⟩) ∧
    (h.getRandomCoaster ResponseWriter.new r rnd).1 = h := by
  have hnon : h.values ≠ [] → ∃ c ∈ h.values,
      (h.getRandomCoaster ResponseWriter.new r rnd).2.finish =
        ⟨302, [("location", "/coasters/" ++ c.ID)], ""⟩ := by
    intro hne
    obtain ⟨c, hc, hresp⟩ := getRandomCoaster_nonempty h ResponseWriter.new r rnd hne
    exact ⟨c, hc, by rw [hresp]; rfl⟩
  refine ⟨?_, hnon, ?_, getRandomCoaster_fst h _ r rnd⟩
  · intro hempty
    rw [getRandomCoaster_empty h _ r rnd hempty]
    rfl
  · intro c hone
    obtain ⟨c', hc', hresp⟩ := hnon (by rw [hone]; simp)
    rw [hone, List.mem_singleton] at hc'
    rw [hresp, hc']

/-- Witness of C7: the initial store holds the seed record only, so every draw redirects to
`/coasters/id1`. -/
theorem getRandomCoaster_response_witness :
    (newCoasterHandlers.getRandomCoaster ResponseWriter.new (getItem "/coasters/random")
      12345).2.finish = ⟨302, [("location", "/coasters/" ++ seedCoaster.ID)], ""⟩ :=
  (getRandomCoaster_response newCoasterHandlers (getItem "/coasters/random") 12345).2.2.1
    seedCoaster rfl

/-- C8: `getCoaster` answers 404 with body `Incorrect path` if and only if the request URL
does not contain exactly two path separators; in that case the response does not depend on
the store, and the store is unchanged. -/
theorem getCoaster_incorrect_path (J : Json) (h : coasterHandlers) (r : Request) (rnd : Nat) :
    (((h.getCoaster J ResponseWriter.new r rnd).2.finish.status = 404 ∧
      (h.getCoaster J ResponseWriter.new r rnd).2.finish.body = "Incorrect path") ↔
        r.URL.data.count '/' ≠ 2) ∧
    (r.URL.data.count '/' ≠ 2 →
      (h.getCoaster J ResponseWriter.new r rnd).2.finish = ⟨404, [], "Incorrect path"⟩ ∧
      (h.getCoaster J ResponseWriter.new r rnd).1 = h ∧
      ∀ h' : coasterHandlers, (h'.getCoaster J ResponseWriter.new r rnd).2 =
        (h.getCoaster J ResponseWriter.new r rnd).2) := by
  have hbad : r.URL.data.count '/' ≠ 2 → ∀ g : coasterHandlers,
      g.getCoaster J ResponseWriter.new r rnd =
        (g, (ResponseWriter.new.WriteHeader StatusNotFound).Write "Incorrect path") := by
    intro hsep g
    have hlen : (SplitSlash r.URL).length ≠ 3 := by
      rw [SplitSlash_length]; omega
    simp only [coasterHandlers.getCoaster, hlen, ne_eq, not_false_eq_true, if_true]
  refine ⟨⟨?_, ?_⟩, ?_⟩
  · rintro ⟨hstatus, hbodytext⟩ hsep
    have hlen : (SplitSlash r.URL).length = 3 := by rw [SplitSlash_length, hsep]
    by_cases hrandom : (SplitSlash r.URL).getD 2 "" = "random"
    · have hcall : h.getCoaster J ResponseWriter.new r rnd =
          h.getRandomCoaster ResponseWriter.new r rnd := by
        simp only [coasterHandlers.getCoaster, hlen, ne_eq, not_true_eq_false, if_false,
          hrandom, if_true]
      rw [hcall] at hstatus hbodytext
      by_cases hempty : h.values = []
      · rw [getRandomCoaster_empty h _ r rnd hempty] at hbodytext
        change "" = "Incorrect path" at hbodytext
        exact absurd hbodytext (by decide)
      · obtain ⟨c, _, hresp⟩ := getRandomCoaster_nonempty h ResponseWriter.new r rnd hempty
        rw [hresp] at hstatus
        change 302 = 404 at hstatus
        omega
    · have hok := getCoaster_item_status J h r rnd hlen hrandom
      rw [hok] at hstatus
      exact absurd hstatus (by decide)
  · intro hsep
    rw [hbad hsep h]
    exact ⟨rfl, rfl⟩
  · intro hsep
    refine ⟨?_, getCoaster_fst J h _ r rnd, ?_⟩
    · rw [hbad hsep h]; rfl
    · intro h'
      rw [hbad hsep h, hbad hsep h']

/-- Witness of C8: the URL `/coasters/a/b` has three separators. -/
theorem getCoaster_incorrect_path_witness :
    (newCoasterHandlers.getCoaster EncodingJson ResponseWriter.new (getItem "/coasters/a/b")
      0).2.finish = ⟨404, [], "Incorrect path"⟩ ∧
    (newCoasterHandlers.getCoaster EncodingJson ResponseWriter.new (getItem "/coasters/a/b")
      0).1 = newCoasterHandlers :=
  ⟨((getCoaster_incorrect_path EncodingJson newCoasterHandlers (getItem "/coasters/a/b") 0).2
      (by decide)).1,
    ((getCoaster_incorrect_path EncodingJson newCoasterHandlers (getItem "/coasters/a/b") 0).2
      (by decide)).2.1⟩

/-- C9: the admin handler answers 401 with body `401 Unauthorized` when `BasicAuth` reports no
well-formed credentials, when the username is not `admin`, or when the password differs from
the configured one; it answers 200 with the fixed HTML body exactly when the username is
`admin` and the password is the configured one. -/
theorem admin_handler_response (a : adminPortal) (r : Request) :
    (r.BasicAuth = none → (a.handler ResponseWriter.new r).finish =
      ⟨401, [], "401 Unauthorized"⟩) ∧
    (∀ user pass, r.BasicAuth = some (user, pass) →
      (user ≠ "admin" ∨ pass ≠ a.password) →
      (a.handler ResponseWriter.new r).finish = ⟨401, [], "401 Unauthorized"⟩) ∧
    ((a.handler ResponseWriter.new r).finish = ⟨200, [], "<H1>something super secret<H1>"⟩ ↔
      r.BasicAuth = some ("admin", a.password)) ∧
    ((a.handler ResponseWriter.new r).finish.status = 200 ↔
      r.BasicAuth = some ("admin", a.password)) := by
  have h401 : ((ResponseWriter.new.WriteHeader StatusUnauthorized).Write
      "401 Unauthorized").finish = ⟨401, [], "401 Unauthorized"⟩ := rfl
  have h200 : (ResponseWriter.new.Write "<H1>something super secret<H1>").finish =
      ⟨200, [], "<H1>something super secret<H1>"⟩ := rfl
  cases hauth : r.BasicAuth with
  | none =>
    have hresp : (a.handler ResponseWriter.new r).finish = ⟨401, [], "401 Unauthorized"⟩ := by
      simp only [adminPortal.handler, hauth, h401]
    rw [hresp]
    simp
  | some up =>
    obtain ⟨user, pass⟩ := up
    by_cases hok : user ≠ "admin" ∨ pass ≠ a.password
    · have hresp : (a.handler ResponseWriter.new r).finish =
          ⟨401, [], "401 Unauthorized"⟩ := by
        simp only [adminPortal.handler, hauth, if_pos hok, h401]
      rw [hresp]
      refine ⟨fun hn => by simp at hn, fun u p hup _ => rfl, ?_, ?_⟩
      · constructor
        · intro hc; exact absurd (congrArg Response.status hc) (by decide)
        · intro hc
          simp only [Option.some.injEq, Prod.mk.injEq] at hc
          rcases hok with hu | hp
          · exact absurd hc.1 hu
          · exact absurd hc.2 hp
      · constructor
        · intro hc; exact absurd hc (by decide)
        · intro hc
          simp only [Option.some.injEq, Prod.mk.injEq] at hc
          rcases hok with hu | hp
          · exact absurd hc.1 hu
          · exact absurd hc.2 hp
    · have hresp : (a.handler ResponseWriter.new r).finish =
          ⟨200, [], "<H1>something super secret<H1>"⟩ := by
        simp only [adminPortal.handler, hauth, if_neg hok, h200]
      rw [hresp]
      have huser : user = "admin" := by
        by_contra hu; exact hok (Or.inl hu)
      have hpass : pass = a.password := by
        by_contra hp; exact hok (Or.inr hp)
      refine ⟨fun hn => by simp at hn, ?_, ?_, ?_⟩
      · intro u p hup hbad
        simp only [Option.some.injEq, Prod.mk.injEq] at hup
        rcases hbad with hu | hp
        · exact absurd (hup.1 ▸ huser) hu
        · exact absurd (hup.2 ▸ hpass) hp
      · simp [huser, hpass]
      · simp [huser, hpass]

/-- Witness of C9: a wrong password is refused, the configured one is accepted. -/
theorem admin_handler_response_witness :
    (exampleAdmin.handler ResponseWriter.new (getAdmin (some ("admin", "guess")))).finish =
      ⟨401, [], "401 Unauthorized"⟩ ∧
    (exampleAdmin.handler ResponseWriter.new (getAdmin (some ("admin", "s3cret")))).finish =
      ⟨200, [], "<H1>something super secret<H1>"⟩ :=
  ⟨(admin_handler_response exampleAdmin (getAdmin (some ("admin", "guess")))).2.1
      "admin" "guess" rfl (Or.inr (by decide)),
    (admin_handler_response exampleAdmin (getAdmin (some ("admin", "s3cret")))).2.2.1.mpr rfl⟩

/-! ## C10: the frame of the store -/

theorem coasters_other (J : Json) (h : coasterHandlers) (w : ResponseWriter) (r : Request)
    (now : Int) (hget : r.Method ≠ "GET") (hpost : r.Method ≠ "POST") :
    h.coasters J w r now =
      (h, (w.WriteHeader StatusMethodNotAllowed).Write "Method not allowed") := by
  unfold coasterHandlers.coasters
  rw [if_neg hget, if_neg hpost]

/-- C10: the store is changed by a successful POST on the collection path and by nothing else,
and no key is ever removed.  GET on the collection path, any method other than GET and POST
(answered 405 `Method not allowed`), `getCoaster`, `getRandomCoaster`, and a POST that leaves
through one of its three rejections (body not read, body not parsed, wrong content type) return
the store unchanged; a successful POST inserts one record under the decimal text of the clock
reading and leaves the entry of every other key as it was; after any call every key that was
present is still present. -/
theorem store_frame (J : Json) (a : adminPortal) (h : coasterHandlers) (w : ResponseWriter)
    (r : Request) (now : Int) (rnd : Nat) :
    (r.Method = "GET" → (h.coasters J w r now).1 = h) ∧
    (r.Method ≠ "GET" → r.Method ≠ "POST" →
      (h.coasters J w r now).1 = h ∧
      (h.coasters J ResponseWriter.new r now).2.finish = ⟨405, [], "Method not allowed"⟩) ∧
    (h.getCoaster J w r rnd).1 = h ∧
    (h.getRandomCoaster w r rnd).1 = h ∧
    (r.Method = "POST" → (∀ err, r.Body = .error err → (h.coasters J w r now).1 = h) ∧
      (∀ bodyBytes err, r.Body = .ok bodyBytes → J.Unmarshal bodyBytes = .error err →
        (h.coasters J w r now).1 = h) ∧
      (r.ContentType ≠ "application/json" → (h.coasters J w r now).1 = h)) ∧
    (∀ status, status = 405 ∨ status = 415 ∨ status = 400 ∨ status = 500 →
      (h.coasters J ResponseWriter.new r now).2.finish.status = status →
      (h.coasters J ResponseWriter.new r now).1 = h) ∧
    (r.Method = "POST" → ∀ bodyBytes coaster, r.Body = .ok bodyBytes →
      J.Unmarshal bodyBytes = .ok coaster → r.ContentType = "application/json" →
      (h.coasters J w r now).1.store =
        h.store.insert (SprintfD now) { coaster with ID := SprintfD now } ∧
      (∀ key, key ≠ SprintfD now →
        (h.coasters J w r now).1.store.lookup key = h.store.lookup key) ∧
      (h.coasters J w r now).2 = w) ∧
    (∀ (c : Call) (key : String), key ∈ h.store → key ∈ (serve J a h c).1.store) := by
  have hpostcases := post_fst J h w r now
  refine ⟨?_, ?_, getCoaster_fst J h w r rnd, getRandomCoaster_fst h w r rnd, ?_, ?_, ?_, ?_⟩
  · intro hget
    simp only [coasterHandlers.coasters, hget, if_true]
    exact get_fst J h w r
  · intro hget hpost
    rw [coasters_other J h w r now hget hpost, coasters_other J h _ r now hget hpost]
    exact ⟨rfl, rfl⟩
  · intro hpost
    rw [coasters_post J h w r now hpost]
    refine ⟨?_, ?_, ?_⟩
    · intro err hbody
      simp [coasterHandlers.post, hbody]
    · intro bodyBytes err hbody hparse
      simp [coasterHandlers.post, hbody, hparse]
    · intro hct
      rcases hpostcases with hp | ⟨_, _, _, _, hct', _⟩
      · exact hp
      · exact absurd hct' hct
  · intro status hstatus hresp
    by_cases hget : r.Method = "GET"
    · simp only [coasterHandlers.coasters, hget, if_true]
      exact get_fst J h _ r
    · by_cases hpost : r.Method = "POST"
      · rw [coasters_post J h _ r now hpost] at hresp ⊢
        rcases post_fst J h ResponseWriter.new r now with hp | ⟨b, c, hbody, hparse, hct, _⟩
        · exact hp
        · rw [post_successful J h _ r now b c hbody hparse hct] at hresp
          rw [finish_new] at hresp
          rcases hstatus with hs | hs | hs | hs <;> rw [hs] at hresp <;>
            exact absurd hresp (by decide)
      · rw [coasters_other J h _ r now hget hpost]
  · intro hpost bodyBytes coaster hbody hparse hct
    rw [coasters_post J h w r now hpost,
      post_successful J h w r now bodyBytes coaster hbody hparse hct]
    exact ⟨rfl, fun key hkey => AList.lookup_insert_ne hkey, rfl⟩
  · intro c key hkey
    rcases serve_fst J a h c with hs | ⟨now', coaster, hs⟩
    · rw [hs]; exact hkey
    · rw [hs]
      exact (AList.mem_insert _).mpr (Or.inr hkey)

/-- Witness of C10: a DELETE on the collection path is answered 405, and a successful POST
keeps the entry stored under `id1`. -/
theorem store_frame_witness :
    ((newCoasterHandlers.coasters EncodingJson ResponseWriter.new
        { getCoasters with Method := "DELETE" } 1600000000000001000).1 = newCoasterHandlers ∧
      (newCoasterHandlers.coasters EncodingJson ResponseWriter.new
        { getCoasters with Method := "DELETE" } 1600000000000001000).2.finish =
          ⟨405, [], "Method not allowed"⟩) ∧
    (afterOnePost.coasters EncodingJson ResponseWriter.new
      (postCoasters "application/json" "\x7b\x7d") 1600000000000001000).1.store.lookup "id1" =
        afterOnePost.store.lookup "id1" :=
  ⟨(store_frame EncodingJson exampleAdmin newCoasterHandlers ResponseWriter.new
      { getCoasters with Method := "DELETE" } 1600000000000001000 0).2.1 (by decide) (by decide),
    ((store_frame EncodingJson exampleAdmin afterOnePost ResponseWriter.new
      (postCoasters "application/json" "\x7b\x7d") 1600000000000001000 0).2.2.2.2.2.2.1 rfl
        "\x7b\x7d" Coaster.zero rfl rfl rfl).2.1 "id1" (by decide)⟩

end Rollercoaster
